import Mathlib

/-!
Verification of the PDF viewer (`app.py`) against its specification.

The development shallowly embeds the program's core:
- `PdfToImage` (document as an indexable sequence of page images, with
  Python sequence indexing semantics),
- the `Canvas` widget (fit geometry, centering, the mouse drag state
  machine and the paint overlay),
- the `Window` controller (file selection, page navigation and the
  enabled/disabled state of the navigation buttons).

Python's `int()` truncation and float division are modelled over `ℚ`;
Qt's `QPoint`/`QRect` are modelled with integer coordinates, including
`QPoint.isNull` (true exactly at the origin) and Qt 6's
`QRect.normalized` (corner swap per axis).  Qt's event dispatch is
modelled explicitly: it calls the handlers `mousePressEvent`,
`mouseMoveEvent` and `mouseReleaseEvent` by name; the source overrides
the first two but names its release handler `mouseRleaseEvent`, which
Qt therefore never calls.
-/

namespace PDFViewer

/-- Truncation of a rational toward zero, Python's `int()` on a float. -/
def pyInt (q : ℚ) : ℤ := if 0 ≤ q then ⌊q⌋ else -⌊-q⌋

/-- Model of `Canvas.calculate_size_of_page` (app.py lines 48-73).
The canvas dimensions come from `self.rect()` and are integers; the page
dimensions are `int | float`, modelled as `ℚ`.  The first branch returns
the page size unconverted; the scaling branches apply `int()`. -/
def calculate_size_of_page (width_canvas height_canvas : ℤ)
    (width_page height_page : ℚ) : ℚ × ℚ :=
  if width_page ≤ (width_canvas : ℚ) ∧ height_page ≤ (height_canvas : ℚ) then
    (width_page, height_page)
  else if height_page < width_page then
    let ratio := height_page / width_page
    ((width_canvas : ℚ), (pyInt ((width_canvas : ℚ) * ratio) : ℚ))
  else
    let ratio := width_page / height_page
    ((pyInt ((height_canvas : ℚ) * ratio) : ℚ), (height_canvas : ℚ))

/-- Model of `Canvas.calculate_zero_coordinates` (app.py lines 75-93).
The guards read `self.rect().width()/height()` and the offsets read
`self.width()/height()`; for a plain widget these coincide, so a single
pair of canvas dimensions is passed.  Python's `abs(int(...))` becomes
`|pyInt ...|`. -/
def calculate_zero_coordinates (width_canvas height_canvas : ℤ)
    (width height : ℚ) : ℤ × ℤ :=
  if width ≤ (width_canvas : ℚ) ∧ height ≤ (height_canvas : ℚ) then
    (|pyInt ((width_canvas : ℚ) / 2 - width / 2)|,
     |pyInt ((height_canvas : ℚ) / 2 - height / 2)|)
  else if width < height then
    (|pyInt ((width_canvas : ℚ) / 2 - width / 2)|, 0)
  else
    (0, |pyInt ((height_canvas : ℚ) / 2 - height / 2)|)

/-- C3: the fit routine is claimed never to upscale, but on a landscape
page that fits the canvas width while overflowing its height, the code
scales the page width up to the (larger) canvas width.  Concretely: page
10×5, canvas 100×4 yields displayed size (100, 50) — width 100 exceeds
the natural width 10 and height 50 exceeds the canvas height 4, so the
result neither avoids upscaling nor fits the canvas (contradicting the
function's own docstring). -/
theorem calculate_size_upscales_code_bug :
    calculate_size_of_page 100 4 10 5 = (100, 50) ∧
    ¬ ((calculate_size_of_page 100 4 10 5).1 ≤ 10) ∧
    ¬ ((calculate_size_of_page 100 4 10 5).2 ≤ 4) := by
  refine ⟨?_, ?_, ?_⟩ <;> norm_num [calculate_size_of_page, pyInt]

/-- C5: whenever the natural page size fits within the canvas on both
axes, the fit routine returns the natural size exactly (no upscaling). -/
theorem calculate_size_id_when_fits (width_canvas height_canvas : ℤ)
    (width_page height_page : ℚ)
    (hw : width_page ≤ (width_canvas : ℚ))
    (hh : height_page ≤ (height_canvas : ℚ)) :
    calculate_size_of_page width_canvas height_canvas width_page height_page
      = (width_page, height_page) := by
  simp [calculate_size_of_page, hw, hh]

/-- Witness for C5 at canvas 700×800 and page 300×400. -/
theorem calculate_size_id_when_fits_witness :
    (300 : ℚ) ≤ ((700 : ℤ) : ℚ) ∧ (400 : ℚ) ≤ ((800 : ℤ) : ℚ) ∧
    calculate_size_of_page 700 800 300 400 = (300, 400) :=
  ⟨by norm_num, by norm_num,
    calculate_size_id_when_fits 700 800 300 400 (by norm_num) (by norm_num)⟩

/-- C6 counterexample: the claim says the offset is applied "only on x
when the image is narrower than the canvas width but taller".  An image
50×40 against a canvas 100×30 is narrower than the canvas (50 < 100) but
taller (40 > 30), so the claim demands offset (25, 0); the code keys the
branch on portrait orientation (`width < height`), which fails here
(50 ≥ 40), so it offsets only y and returns (0, 5). -/
theorem centering_axis_counterexample :
    calculate_zero_coordinates 100 30 50 40 = (0, 5) ∧
    ((0 : ℤ), (5 : ℤ)) ≠ (|pyInt ((100 : ℚ) / 2 - 50 / 2)|, (0 : ℤ)) := by
  constructor
  · norm_num [calculate_zero_coordinates, pyInt]
  · norm_num [pyInt]

/-- Centering bound for one axis: when the image extent `v` fits the
canvas extent `c`, placing it at `|pyInt (c/2 - v/2)|` puts its midpoint
within one pixel of the canvas midpoint. -/
theorem centering_axis_bound (c : ℤ) (v : ℚ) (_h0 : 0 ≤ v) (hc : v ≤ (c : ℚ)) :
    |((|pyInt ((c : ℚ) / 2 - v / 2)| : ℤ) : ℚ) + v / 2 - (c : ℚ) / 2| < 1 := by
  have hx : (0 : ℚ) ≤ (c : ℚ) / 2 - v / 2 := by linarith
  have hge : (0 : ℤ) ≤ pyInt ((c : ℚ) / 2 - v / 2) := by
    rw [pyInt, if_pos hx]
    exact Int.floor_nonneg.mpr hx
  rw [abs_of_nonneg hge, pyInt, if_pos hx]
  have h1 := Int.floor_le ((c : ℚ) / 2 - v / 2)
  have h2 := Int.sub_one_lt_floor ((c : ℚ) / 2 - v / 2)
  rw [abs_lt]
  constructor <;> linarith

/-- C6 amended: the centering offset is |canvas/2 − image/2| per axis
(after `int()` truncation), applied on both axes when the image fits
both axes — in which case the displayed image's center lies within one
pixel of the canvas center — and otherwise applied only on x when the
image is portrait (width < height) and only on y when width ≥ height,
regardless of which canvas axis overflows. -/
theorem centering_amended (width_canvas height_canvas : ℤ) (w h : ℚ) :
    (0 ≤ w → w ≤ (width_canvas : ℚ) → 0 ≤ h → h ≤ (height_canvas : ℚ) →
      |(((calculate_zero_coordinates width_canvas height_canvas w h).1 : ℚ)
          + w / 2) - (width_canvas : ℚ) / 2| < 1 ∧
      |(((calculate_zero_coordinates width_canvas height_canvas w h).2 : ℚ)
          + h / 2) - (height_canvas : ℚ) / 2| < 1) ∧
    (¬ (w ≤ (width_canvas : ℚ) ∧ h ≤ (height_canvas : ℚ)) → w < h →
      calculate_zero_coordinates width_canvas height_canvas w h
        = (|pyInt ((width_canvas : ℚ) / 2 - w / 2)|, 0)) ∧
    (¬ (w ≤ (width_canvas : ℚ) ∧ h ≤ (height_canvas : ℚ)) → h ≤ w →
      calculate_zero_coordinates width_canvas height_canvas w h
        = (0, |pyInt ((height_canvas : ℚ) / 2 - h / 2)|)) := by
  refine ⟨?_, ?_, ?_⟩
  · intro hw0 hwc hh0 hhc
    have hfit : w ≤ (width_canvas : ℚ) ∧ h ≤ (height_canvas : ℚ) := ⟨hwc, hhc⟩
    rw [calculate_zero_coordinates, if_pos hfit]
    exact ⟨centering_axis_bound width_canvas w hw0 hwc,
           centering_axis_bound height_canvas h hh0 hhc⟩
  · intro hnofit hwh
    rw [calculate_zero_coordinates, if_neg hnofit, if_pos hwh]
  · intro hnofit hhw
    rw [calculate_zero_coordinates, if_neg hnofit, if_neg (not_lt.mpr hhw)]

/-- Witness for C6 amended: the fits-both-axes centering bound at canvas
100×200 and image 10×20, the portrait branch at canvas 100×30 with image
20×40, and the landscape branch at canvas 100×30 with image 50×40. -/
theorem centering_amended_witness :
    (|((calculate_zero_coordinates 100 200 10 20).1 : ℚ)
          + 10 / 2 - ((100 : ℤ) : ℚ) / 2| < 1 ∧
     |((calculate_zero_coordinates 100 200 10 20).2 : ℚ)
          + 20 / 2 - ((200 : ℤ) : ℚ) / 2| < 1) ∧
    calculate_zero_coordinates 100 30 20 40
      = (|pyInt (((100 : ℤ) : ℚ) / 2 - 20 / 2)|, 0) ∧
    calculate_zero_coordinates 100 30 50 40
      = (0, |pyInt (((30 : ℤ) : ℚ) / 2 - 40 / 2)|) :=
  ⟨(centering_amended 100 200 10 20).1
      (by norm_num) (by norm_num) (by norm_num) (by norm_num),
   (centering_amended 100 30 20 40).2.1 (by norm_num) (by norm_num),
   (centering_amended 100 30 50 40).2.2 (by norm_num) (by norm_num)⟩

/-- Qt's `QPoint` with integer coordinates. -/
structure QPoint where
  x : ℤ
  y : ℤ
deriving DecidableEq

/-- Default-constructed `QPoint()`: the origin. -/
def QPoint.nullPoint : QPoint := ⟨0, 0⟩

/-- Qt's `QPoint.isNull`: true exactly when both coordinates are zero. -/
def QPoint.isNull (p : QPoint) : Bool := p.x == 0 && p.y == 0

/-- Qt's `QRect` stored by its corners (`x1` = left, `y1` = top,
`x2` = right, `y2` = bottom). -/
structure QRect where
  x1 : ℤ
  y1 : ℤ
  x2 : ℤ
  y2 : ℤ
deriving DecidableEq

/-- The `QRect(topLeft, bottomRight)` constructor used in the source. -/
def QRect.ofPoints (p q : QPoint) : QRect := ⟨p.x, p.y, q.x, q.y⟩

/-- Qt 6's `QRect.normalized`: swap the x corners when `x2 < x1`, and
the y corners when `y2 < y1`. -/
def QRect.normalized (r : QRect) : QRect :=
  let r1 := if r.x2 < r.x1 then { r with x1 := r.x2, x2 := r.x1 } else r
  if r1.y2 < r1.y1 then { r1 with y1 := r1.y2, y2 := r1.y1 } else r1

/-- State of the `Canvas` widget: the two drag points (`self.begin`,
`self.destination`, app.py line 39), the page image currently loaded
into the pixmap (`none` for the initial `welcome.png`) and the list of
rectangles drawn permanently into the pixmap's pixel data. -/
structure CanvasState where
  begin : QPoint
  destination : QPoint
  image : Option ℕ
  committed : List QRect
deriving DecidableEq

/-- `Canvas.__init__` (app.py lines 35-40): both points are
default-constructed (null) and no rectangle has been committed. -/
def initCanvas : CanvasState := ⟨QPoint.nullPoint, QPoint.nullPoint, none, []⟩

/-- `Canvas.reload` (app.py lines 42-46): replaces the whole pixmap,
discarding any rectangles drawn onto the previous one. -/
def CanvasState.reload (st : CanvasState) (img : ℕ) : CanvasState :=
  { st with image := some img, committed := [] }

/-- One mouse event as delivered by Qt.  `leftHeld` records whether
`event.buttons()` contains the left button; for a release event Qt has
already removed the released button from `buttons()`. -/
inductive MouseEvent where
  | press (pos : QPoint) (leftHeld : Bool)
  | move (pos : QPoint) (leftHeld : Bool)
  | release (pos : QPoint) (leftHeld : Bool)
deriving DecidableEq

/-- `Canvas.mousePressEvent` (app.py lines 113-117). -/
def mousePressEvent (st : CanvasState) (pos : QPoint) (leftHeld : Bool) :
    CanvasState :=
  if leftHeld then { st with begin := pos, destination := pos } else st

/-- `Canvas.mouseMoveEvent` (app.py lines 119-122). -/
def mouseMoveEvent (st : CanvasState) (pos : QPoint) (leftHeld : Bool) :
    CanvasState :=
  if leftHeld then { st with destination := pos } else st

/-- `Canvas.mouseRleaseEvent` (app.py lines 124-131), the source's
misspelled release handler, modelled as written: draw the normalized
rectangle of the two drag points into the pixmap's pixels and reset
both points to null. -/
def mouseRleaseEvent (st : CanvasState) (_pos : QPoint) (leftHeld : Bool) :
    CanvasState :=
  if leftHeld then
    { st with
        committed :=
          st.committed ++ [(QRect.ofPoints st.begin st.destination).normalized],
        begin := QPoint.nullPoint,
        destination := QPoint.nullPoint }
  else st

/-- Qt's event dispatch for a `Canvas`: press and move events reach the
overridden handlers; a release event is dispatched to the virtual
method `mouseReleaseEvent`, which the source does not override (its
handler is named `mouseRleaseEvent`), so `QLabel`'s default runs and
the canvas state is unchanged. -/
def dispatchEvent (st : CanvasState) (e : MouseEvent) : CanvasState :=
  match e with
  | .press pos leftHeld => mousePressEvent st pos leftHeld
  | .move pos leftHeld => mouseMoveEvent st pos leftHeld
  | .release _ _ => st

/-- Folding a sequence of mouse events through Qt's dispatch. -/
def dispatchEvents (st : CanvasState) (es : List MouseEvent) : CanvasState :=
  es.foldl dispatchEvent st

/-- The rubber-band overlay drawn by `Canvas.paintEvent` (app.py lines
109-111): a normalized rectangle, but only when neither drag point
`isNull`. -/
def paintOverlay (st : CanvasState) : Option QRect :=
  if !st.begin.isNull && !st.destination.isNull then
    some (QRect.ofPoints st.begin st.destination).normalized
  else none

/-- C1 code bug: a full drag (left press at (1,2), move to (5,6), left
release) commits nothing and leaves both drag points set, because a
release event never reaches the misspelled `mouseRleaseEvent` (Qt calls
`mouseReleaseEvent`, which is not overridden); the first conjunct
records that dispatch leaves the state unchanged on every release. -/
theorem release_commit_code_bug :
    (∀ (st : CanvasState) (p : QPoint) (b : Bool),
        dispatchEvent st (.release p b) = st) ∧
    (dispatchEvents initCanvas
        [.press ⟨1, 2⟩ true, .move ⟨5, 6⟩ true,
         .release ⟨5, 6⟩ false]).committed = [] ∧
    (dispatchEvents initCanvas
        [.press ⟨1, 2⟩ true, .move ⟨5, 6⟩ true,
         .release ⟨5, 6⟩ false]).begin = ⟨1, 2⟩ ∧
    (dispatchEvents initCanvas
        [.press ⟨1, 2⟩ true, .move ⟨5, 6⟩ true,
         .release ⟨5, 6⟩ false]).destination = ⟨5, 6⟩ :=
  ⟨fun _ _ _ => rfl, rfl, rfl, rfl⟩

/-- Normalizing the rectangle of two corner points yields their
coordinatewise bounding box. -/
theorem normalized_ofPoints (p q : QPoint) :
    (QRect.ofPoints p q).normalized
      = ⟨min p.x q.x, min p.y q.y, max p.x q.x, max p.y q.y⟩ := by
  simp only [QRect.ofPoints, QRect.normalized]
  split_ifs <;> simp_all [QRect.mk.injEq] <;> omega

/-- C8 counterexample: a drag that presses at (7,8) and releases at
(2,3) commits no rectangle at all, so the committed result is not the
normalized bounding box of the two points. -/
theorem commit_symmetry_counterexample :
    (dispatchEvents initCanvas
        [.press ⟨7, 8⟩ true, .move ⟨2, 3⟩ true,
         .release ⟨2, 3⟩ false]).committed = [] ∧
    ([] : List QRect) ≠ [(QRect.ofPoints ⟨7, 8⟩ ⟨2, 3⟩).normalized] :=
  ⟨rfl, by decide⟩

/-- C8 amended: the release handler body itself is direction
independent — invoked with the left button reported held, drag points
(p, q) and (q, p) produce identical states, and the rectangle drawn
into the pixmap is the normalized bounding box of the two points; under
Qt's dispatch, however, an actual release never invokes this handler,
so a real drag commits nothing in either direction. -/
theorem release_handler_symmetric (st : CanvasState) (p q pos : QPoint) :
    mouseRleaseEvent { st with begin := p, destination := q } pos true
      = mouseRleaseEvent { st with begin := q, destination := p } pos true ∧
    (mouseRleaseEvent { st with begin := p, destination := q } pos true).committed
      = st.committed
          ++ [⟨min p.x q.x, min p.y q.y, max p.x q.x, max p.y q.y⟩] := by
  constructor
  · simp [mouseRleaseEvent, normalized_ofPoints, CanvasState.mk.injEq,
      min_comm, max_comm]
  · simp [mouseRleaseEvent, normalized_ofPoints]

/-- Recognizer for move events. -/
def MouseEvent.isMove : MouseEvent → Bool
  | .move _ _ => true
  | _ => false

/-- Within an event sequence, every move event carrying the left button
is preceded by some press carrying the left button; the flag records
whether such a press has already occurred.  This reflects Qt's mouse
grab: drag moves are delivered to the widget that received the press. -/
def wellFormedFrom : Bool → List MouseEvent → Bool
  | _, [] => true
  | _, .press _ true :: rest => wellFormedFrom true rest
  | seen, .move _ true :: rest => seen && wellFormedFrom seen rest
  | seen, _ :: rest => wellFormedFrom seen rest

/-- Event sequences deliverable by Qt to the canvas: every left-button
move is preceded by a left-button press. -/
def wellFormed (es : List MouseEvent) : Bool := wellFormedFrom false es

/-- No left-button press or move in the sequence occurs at the origin,
the coordinate that collides with the null sentinel. -/
def avoidsOrigin : List MouseEvent → Bool
  | [] => true
  | .press p true :: rest => !p.isNull && avoidsOrigin rest
  | .move p true :: rest => !p.isNull && avoidsOrigin rest
  | _ :: rest => avoidsOrigin rest

/-- The spec's drag invariant: the two drag points are either both null
or both non-null. -/
def dragInvariant (st : CanvasState) : Prop :=
  (st.begin.isNull = true ∧ st.destination.isNull = true) ∨
  (st.begin.isNull = false ∧ st.destination.isNull = false)

/-- C4 counterexample: the well-formed, physically deliverable sequence
"left press at (0,0), drag to (3,4)" leaves `begin` null (the stored
press point collides with the null sentinel) while `destination` is
non-null, so the invariant fails in a reachable state. -/
theorem drag_invariant_counterexample :
    wellFormed [.press ⟨0, 0⟩ true, .move ⟨3, 4⟩ true] = true ∧
    ¬ dragInvariant
        (dispatchEvents initCanvas [.press ⟨0, 0⟩ true, .move ⟨3, 4⟩ true]) := by
  refine ⟨rfl, ?_⟩
  unfold dragInvariant
  decide

/-- Threading the "a left press has occurred" flag through an event
sequence preserves the drag invariant, provided no left press or move
hits the origin. -/
theorem dragInvariant_step (es : List MouseEvent) :
    ∀ (seen : Bool) (st : CanvasState),
    (if seen then st.begin.isNull = false ∧ st.destination.isNull = false
     else st.begin.isNull = true ∧ st.destination.isNull = true) →
    wellFormedFrom seen es = true → avoidsOrigin es = true →
    dragInvariant (dispatchEvents st es) := by
  induction es with
  | nil =>
    intro seen st hst _ _
    cases seen with
    | false => exact Or.inl hst
    | true => exact Or.inr hst
  | cons e rest ih =>
    intro seen st hst hwf hav
    cases e with
    | press pos leftHeld =>
      cases leftHeld with
      | false =>
        have h1 : wellFormedFrom seen rest = true := hwf
        have h2 : avoidsOrigin rest = true := hav
        have hstep : dispatchEvents st (.press pos false :: rest)
            = dispatchEvents st rest := rfl
        rw [hstep]
        exact ih seen st hst h1 h2
      | true =>
        have h1 : wellFormedFrom true rest = true := hwf
        have h2 : (!pos.isNull && avoidsOrigin rest) = true := hav
        rw [Bool.and_eq_true, Bool.not_eq_true'] at h2
        have hstep : dispatchEvents st (.press pos true :: rest)
            = dispatchEvents { st with begin := pos, destination := pos } rest := rfl
        rw [hstep]
        exact ih true _ ⟨h2.1, h2.1⟩ h1 h2.2
    | move pos leftHeld =>
      cases leftHeld with
      | false =>
        have h1 : wellFormedFrom seen rest = true := hwf
        have h2 : avoidsOrigin rest = true := hav
        have hstep : dispatchEvents st (.move pos false :: rest)
            = dispatchEvents st rest := rfl
        rw [hstep]
        exact ih seen st hst h1 h2
      | true =>
        have h1 : (seen && wellFormedFrom seen rest) = true := hwf
        rw [Bool.and_eq_true] at h1
        have h2 : (!pos.isNull && avoidsOrigin rest) = true := hav
        rw [Bool.and_eq_true, Bool.not_eq_true'] at h2
        obtain ⟨hseen, hwfr⟩ := h1
        subst hseen
        have hstep : dispatchEvents st (.move pos true :: rest)
            = dispatchEvents { st with destination := pos } rest := rfl
        rw [hstep]
        exact ih true _ ⟨hst.1, h2.1⟩ hwfr h2.2
    | release pos leftHeld =>
      have h1 : wellFormedFrom seen rest = true := hwf
      have h2 : avoidsOrigin rest = true := hav
      have hstep : dispatchEvents st (.release pos leftHeld :: rest)
          = dispatchEvents st rest := rfl
      rw [hstep]
      exact ih seen st hst h1 h2

/-- C4 amended: for every Qt-deliverable event sequence (each left-drag
move preceded by a left press) in which no left press or move occurs at
the origin (0,0), every reachable canvas state has the two drag points
both null or both non-null.  Without the origin restriction the
invariant fails, because the null sentinel collides with a press at the
origin. -/
theorem drag_invariant_amended (es : List MouseEvent)
    (hwf : wellFormed es = true) (hav : avoidsOrigin es = true) :
    dragInvariant (dispatchEvents initCanvas es) :=
  dragInvariant_step es false initCanvas ⟨rfl, rfl⟩ hwf hav

/-- Witness for C4 amended: the drag press (1,2), move (5,6). -/
theorem drag_invariant_amended_witness :
    wellFormed [.press ⟨1, 2⟩ true, .move ⟨5, 6⟩ true] = true ∧
    avoidsOrigin [.press ⟨1, 2⟩ true, .move ⟨5, 6⟩ true] = true ∧
    dragInvariant
      (dispatchEvents initCanvas [.press ⟨1, 2⟩ true, .move ⟨5, 6⟩ true]) :=
  ⟨rfl, by decide,
    drag_invariant_amended [.press ⟨1, 2⟩ true, .move ⟨5, 6⟩ true]
      rfl (by decide)⟩

/-- Moves never change the drag-begin point. -/
theorem begin_unchanged_by_moves (es : List MouseEvent) :
    ∀ st : CanvasState, (∀ e ∈ es, e.isMove = true) →
    (dispatchEvents st es).begin = st.begin := by
  induction es with
  | nil => intro st _; rfl
  | cons e rest ih =>
    intro st h
    have he : e.isMove = true := h e (List.mem_cons_self e rest)
    have hrest : ∀ x ∈ rest, x.isMove = true :=
      fun x hx => h x (List.mem_cons_of_mem e hx)
    cases e with
    | press pos leftHeld => simp [MouseEvent.isMove] at he
    | release pos leftHeld => simp [MouseEvent.isMove] at he
    | move pos leftHeld =>
      have hstep : dispatchEvents st (.move pos leftHeld :: rest)
          = dispatchEvents (mouseMoveEvent st pos leftHeld) rest := rfl
      rw [hstep, ih (mouseMoveEvent st pos leftHeld) hrest]
      unfold mouseMoveEvent
      split <;> rfl

/-- C10: a left press at the origin stores a drag-begin point that Qt's
`isNull` reports as null, and consequently the paint routine draws no
rubber-band overlay at any point of the subsequent drag motion. -/
theorem origin_drag_no_overlay :
    ((dispatchEvent initCanvas (.press QPoint.nullPoint true)).begin.isNull
        = true) ∧
    ∀ moves : List MouseEvent, (∀ e ∈ moves, e.isMove = true) →
      paintOverlay
        (dispatchEvents (dispatchEvent initCanvas (.press QPoint.nullPoint true))
          moves) = none := by
  refine ⟨rfl, ?_⟩
  intro moves h
  have hb := begin_unchanged_by_moves moves
    (dispatchEvent initCanvas (.press QPoint.nullPoint true)) h
  have hbnull : (dispatchEvents
      (dispatchEvent initCanvas (.press QPoint.nullPoint true)) moves).begin.isNull
      = true := by rw [hb]; rfl
  simp [paintOverlay, hbnull]

/-- Witness for C10: dragging from the origin to (3,4) paints no
overlay. -/
theorem origin_drag_no_overlay_witness :
    paintOverlay
      (dispatchEvents (dispatchEvent initCanvas (.press QPoint.nullPoint true))
        [.move ⟨3, 4⟩ true]) = none :=
  origin_drag_no_overlay.2 [.move ⟨3, 4⟩ true] (by decide)

/-- Python sequence indexing on a list: non-negative indices index from
the front, indices in `[-len, -1]` index from the back, and anything
else raises IndexError (`none`). -/
def pyGetItem {α : Type} (xs : List α) (i : ℤ) : Option α :=
  if 0 ≤ i then xs.get? i.toNat
  else if 0 ≤ (xs.length : ℤ) + i then xs.get? ((xs.length : ℤ) + i).toNat
  else none

/-- `PdfToImage` (app.py lines 13-27): wraps the list of page images
produced by `convert_from_path`; page images are identified by
naturals. -/
structure PdfToImage where
  images : List ℕ
deriving DecidableEq

/-- `PdfToImage.__getitem__` (app.py lines 23-24): delegates to Python
list indexing. -/
def PdfToImage.getitem (p : PdfToImage) (item : ℤ) : Option ℕ :=
  pyGetItem p.images item

/-- `PdfToImage.__len__` (app.py lines 26-27). -/
def PdfToImage.len (p : PdfToImage) : ℕ := p.images.length

/-- C9: `__getitem__` inherits Python's sequence indexing, so on a
document with `N` pages any index `i` with `-N ≤ i < 0` succeeds and
returns the page at position `N + i` instead of failing. -/
theorem getitem_negative_index (p : PdfToImage) (i : ℤ)
    (h1 : -(p.len : ℤ) ≤ i) (h2 : i < 0) :
    p.getitem i = p.images.get? ((p.len : ℤ) + i).toNat ∧
    (p.getitem i).isSome = true := by
  have hlen : (p.len : ℤ) = (p.images.length : ℤ) := rfl
  have hnot : ¬ 0 ≤ i := not_le.mpr h2
  have hpos : 0 ≤ (p.images.length : ℤ) + i := by omega
  have heq : p.getitem i = p.images.get? ((p.len : ℤ) + i).toNat := by
    rw [PdfToImage.getitem, pyGetItem, if_neg hnot, if_pos hpos, hlen]
  refine ⟨heq, ?_⟩
  rw [heq]
  have hlt : ((p.len : ℤ) + i).toNat < p.images.length := by omega
  simp [List.get?_eq_getElem?, List.getElem?_eq_getElem hlt]

/-- Witness for C9: on a three-page document, index -1 returns the page
at position 2. -/
theorem getitem_negative_index_witness :
    -((PdfToImage.mk [10, 20, 30]).len : ℤ) ≤ -1 ∧ (-1 : ℤ) < 0 ∧
    ((PdfToImage.mk [10, 20, 30]).getitem (-1)
        = (PdfToImage.mk [10, 20, 30]).images.get?
            (((PdfToImage.mk [10, 20, 30]).len : ℤ) + -1).toNat ∧
     ((PdfToImage.mk [10, 20, 30]).getitem (-1)).isSome = true) :=
  ⟨by decide, by decide,
    getitem_negative_index (PdfToImage.mk [10, 20, 30]) (-1)
      (by decide) (by decide)⟩

/-- Python exceptions arising on the controller's code paths.
`decodeError` stands for the pdf2image exceptions raised by
`convert_from_path`; `typeError` is Python's error for subscripting or
taking `len()` of `None`. -/
inductive PyError where
  | indexError
  | typeError
  | decodeError
deriving DecidableEq

/-- State of the `Window` controller (app.py lines 134-169): the
document, the selected filename, the current page index, the enabled
states of the two navigation buttons, the page label text and the
embedded canvas. -/
structure WState where
  pdf : Option PdfToImage
  filename : String
  current_page : ℤ
  prevEnabled : Bool
  nextEnabled : Bool
  labelPages : String
  canvas : CanvasState
deriving DecidableEq

/-- `Window.__init__` (app.py lines 135-169): no document, empty
filename, page index 0, both navigation buttons disabled, label
"0 / 0". -/
def initWindow : WState := ⟨none, "", 0, false, false, "0 / 0", initCanvas⟩

/-- `Window.display_page` (app.py lines 205-213): reload the canvas
with page `page`; then unconditionally enable the next button and
refresh the label.  Subscripting raises TypeError when no document is
loaded (`self.pdf` is `None`) and IndexError when the index is out of
range, aborting before the button and label updates. -/
def display_page (st : WState) (page : ℤ) : Except PyError WState :=
  match st.pdf with
  | none => .error .typeError
  | some pdf =>
    match pdf.getitem page with
    | none => .error .indexError
    | some img =>
      .ok { st with
              canvas := st.canvas.reload img,
              nextEnabled := true,
              labelPages :=
                toString (st.current_page + 1) ++ " / " ++ toString pdf.len }

/-- `Window.select_file` (app.py lines 171-182), parameterized by the
dialog result (`none` when the user cancels, making `filename` falsy)
and by the decoder backing `PdfToImage.__init__`.  The result pairs the
raised exception, if any, with the resulting state: attribute mutations
performed before an exception persist on the Python object. -/
def select_file (st : WState) (dialogResult : Option String)
    (decode : String → Except PyError (List ℕ)) : Option PyError × WState :=
  match dialogResult with
  | none => (none, st)
  | some filename =>
    let st1 := { st with filename := filename, current_page := 0 }
    match decode filename with
    | .error e => (some e, st1)
    | .ok pages =>
      let st2 := { st1 with pdf := some ⟨pages⟩ }
      match display_page st2 0 with
      | .error e => (some e, st2)
      | .ok st3 => (none, st3)

/-- `Window.display_next_page` (app.py lines 184-189). -/
def display_next_page (st : WState) : Option PyError × WState :=
  let st1 := { st with current_page := st.current_page + 1 }
  match display_page st1 st1.current_page with
  | .error e => (some e, st1)
  | .ok st2 =>
    let st3 := { st2 with prevEnabled := true }
    match st3.pdf with
    | none => (some .typeError, st3)
    | some pdf =>
      (none,
        { st3 with nextEnabled := decide (st3.current_page ≠ (pdf.len : ℤ) - 1) })

/-- `Window.display_prev_page` (app.py lines 191-196). -/
def display_prev_page (st : WState) : Option PyError × WState :=
  let st1 := { st with current_page := st.current_page - 1 }
  match display_page st1 st1.current_page with
  | .error e => (some e, st1)
  | .ok st2 =>
    let st3 := { st2 with prevEnabled := decide (st2.current_page ≠ 0) }
    (none, { st3 with nextEnabled := true })

/-- C2 code bug: opening a one-page document leaves the next button
enabled even though the page index 0 is the last page, because
`display_page` enables it unconditionally and `select_file` never
recomputes either button; clicking next from this state raises the very
IndexError the spec requires the disabled button to prevent. -/
theorem navigation_boundary_code_bug :
    (select_file initWindow (some "doc.pdf") (fun _ => .ok [7])).1 = none ∧
    (select_file initWindow (some "doc.pdf")
        (fun _ => .ok [7])).2.current_page = 0 ∧
    (select_file initWindow (some "doc.pdf") (fun _ => .ok [7])).2.pdf
      = some ⟨[7]⟩ ∧
    (select_file initWindow (some "doc.pdf")
        (fun _ => .ok [7])).2.nextEnabled = true ∧
    (display_next_page
        (select_file initWindow (some "doc.pdf") (fun _ => .ok [7])).2).1
      = some .indexError := by
  refine ⟨rfl, rfl, rfl, rfl, ?_⟩
  decide

/-- Prior controller state for C7: a three-page document open at its
last page. -/
def openedState : WState :=
  ⟨some ⟨[1, 2, 3]⟩, "old.pdf", 2, true, false, "3 / 3", initCanvas⟩

/-- C7 counterexample: when the decoder fails the exception does
propagate, but partial state is retained: `select_file` assigns the
filename and resets the page index before decoding, so after a failed
open of "bad.pdf" the stored filename is "bad.pdf" (not the previous
"old.pdf") and the page index is 0 (not the previous 2). -/
theorem open_failure_partial_state_counterexample :
    (select_file openedState (some "bad.pdf")
        (fun _ => .error .decodeError)).1 = some .decodeError ∧
    (select_file openedState (some "bad.pdf")
        (fun _ => .error .decodeError)).2.filename = "bad.pdf" ∧
    openedState.filename = "old.pdf" ∧ "bad.pdf" ≠ "old.pdf" ∧
    (select_file openedState (some "bad.pdf")
        (fun _ => .error .decodeError)).2.current_page = 0 ∧
    openedState.current_page = 2 :=
  ⟨rfl, rfl, rfl, by decide, rfl, rfl⟩

/-- C7 amended: a decode failure always propagates to the caller as an
exception (never swallowed) and the document attribute, canvas and
button states are untouched, but the filename has already been
overwritten with the new path and the page index reset to 0 by the time
the exception is raised. -/
theorem open_failure_propagates (st : WState) (f : String)
    (decode : String → Except PyError (List ℕ)) (e : PyError)
    (h : decode f = .error e) :
    select_file st (some f) decode
      = (some e, { st with filename := f, current_page := 0 }) := by
  simp [select_file, h]

/-- Witness for C7 amended at a concrete state and failing decoder. -/
theorem open_failure_propagates_witness :
    (fun _ : String => (.error .decodeError : Except PyError (List ℕ))) "bad.pdf"
      = .error .decodeError ∧
    select_file openedState (some "bad.pdf") (fun _ => .error .decodeError)
      = (some .decodeError,
         { openedState with filename := "bad.pdf", current_page := 0 }) :=
  ⟨rfl, open_failure_propagates openedState "bad.pdf" _ PyError.decodeError rfl⟩

end PDFViewer
